import Mathlib

/-!
Shallow embedding of the core of `bioimageio_chatbot/chatbot.py`:
the sandboxed script executor `execute_code`, the classification
retry logic and legal-variant selection of `respond_to_user`, the
multi-channel document-retrieval merge of the `DocumentRetrievalInput`
branch, and the session-filtering `stream_callback`.

Machine-level conventions: Python float relevance scores are modelled
as rationals (only ordering and equality of scores matter here);
Python dictionaries are modelled as association lists; Python object
identity for stream objects and for the context mapping is modelled by
natural-number references into an explicit store.
-/

namespace Chatbot

/-! ## Script sandbox: `execute_code` (chatbot.py lines 44-79)

A `PyScript` models the observable behaviour of one textual script when
`exec`d against its seeded local-variable mapping: the text it writes to
the redirected stdout and stderr streams, the top-level name bindings it
assigns in its execution namespace, and, if it raises an exception, the
stringified message `str(e)` of that exception (`none` when the script
terminates normally). -/

structure PyScript where
  out : String
  errOut : String
  updates : List (String × String)
  fault : Option String
deriving DecidableEq, Repr

/-- The value returned by `execute_code`: the dict
`{"stdout": ..., "stderr": ...}`. -/
structure ExecResult where
  stdout : String
  stderr : String
deriving DecidableEq, Repr

/-- The ambient interpreter state `execute_code` touches: which stream
objects `sys.stdout` / `sys.stderr` are bound to, and a store of mapping
objects addressed by reference (fresh references are `≥ nextId`). -/
structure PyState where
  stdoutBinding : Nat
  stderrBinding : Nat
  maps : Nat → List (String × String)
  nextId : Nat

/-- Assigning `k = v` in a Python dict: overwrite the binding if the key
is present, otherwise append a new binding. -/
def setKey (m : List (String × String)) (k v : String) : List (String × String) :=
  if m.any (fun p => p.1 = k) then m.map (fun p => if p.1 = k then (k, v) else p)
  else m ++ [(k, v)]

/-- The top-level assignments a script performs on its local-variable
mapping, applied in order. -/
def applyUpdates (us : List (String × String)) (m : List (String × String)) :
    List (String × String) :=
  us.foldl (fun acc kv => setKey acc kv.1 kv.2) m

/-- The dict `execute_code` returns: on normal termination the captured
stdout/stderr contents, on an exception the pair `("", str(e))` (lines
62-75: the captured output is read only on the success path; the
`except` branch returns the literal empty string for stdout). -/
def scriptResult (s : PyScript) : ExecResult :=
  match s.fault with
  | none => { stdout := s.out, stderr := s.errOut }
  | some e => { stdout := "", stderr := e }

/-- `execute_code(script, context)` (lines 44-79), as a state-passing
function. `ctxRef` is the caller's `context` argument (`none` models
`context=None`, which the code replaces by a fresh empty dict).
Step by step, following the source:
saves the current stream bindings (lines 49-50), rebinds both streams
to fresh `StringIO` objects (51-52), copies the context into a fresh
mapping `local_vars` (56), `exec`s the script against that copy (59)
producing `scriptResult` whether or not the script faults (the
`try`/`except` of lines 54-75), and in the `finally` block rebinds both
streams to the saved originals (76-79). -/
def execute_code (script : PyScript) (ctxRef : Option Nat) (σ : PyState) :
    ExecResult × PyState :=
  let ctx : List (String × String) :=
    match ctxRef with
    | none => []
    | some r => σ.maps r
  let original_stdout := σ.stdoutBinding
  let original_stderr := σ.stderrBinding
  let capturedOutId := σ.nextId
  let capturedErrId := σ.nextId + 1
  let localVarsId := σ.nextId + 2
  let σ1 : PyState :=
    { stdoutBinding := capturedOutId
      stderrBinding := capturedErrId
      maps := fun i => if i = localVarsId then applyUpdates script.updates ctx else σ.maps i
      nextId := σ.nextId + 3 }
  let result := scriptResult script
  let σ2 : PyState :=
    { σ1 with stdoutBinding := original_stdout, stderrBinding := original_stderr }
  (result, σ2)

/-! ## Per-session stream listener: `stream_callback` (lines 400-403) -/

/-- An event published on the shared `stream` event bus. -/
structure StreamMessage where
  type : String
  sessionId : String
  content : String
deriving DecidableEq, Repr

/-- The listener registered by `chat` for one request: forwards the
message to the caller's status callback only when the message type is
`"function_call"` or `"text"` and the embedded session id equals the
listener's own; returns `none` (no forwarding) otherwise. -/
def stream_callback (sessionId : String) (msg : StreamMessage) : Option StreamMessage :=
  if msg.type = "function_call" ∨ msg.type = "text" then
    if msg.sessionId = sessionId then some msg else none
  else none

/-! ## Classification retry (lines 176-201)

Each classification branch of `respond_to_user` is the same pattern:
`try: req = await role.aask(inputs, Schema) except Exception: req =
await role.aask(inputs, Schema)` — one retry with the identical
`inputs` and schema, and no handler around the second call, so a second
fault propagates to the caller. The external classifier is modelled as
an oracle from the (fixed) classification input and the attempt number
to a result or a fault. -/

/-- The inputs assembled for `role.aask` before classification (lines
172-175): user profile, chat history, question, with the channel info
inserted at the front when present. Fixed before the first attempt and
reused verbatim for the retry. -/
structure ClassifyInput where
  channel : Option String
  profile : String
  history : List (String × String)
  question : String
deriving DecidableEq, Repr

/-- The `try`/`except`-retry around `role.aask`: consult the oracle at
attempt 0; on success return that result; on a fault call the oracle
once more, at attempt 1 with the same input, and return whatever the
second call produces (a second fault is not caught). -/
def classifyWithRetry {α : Type} (ask : ClassifyInput → Nat → Except String α)
    (inp : ClassifyInput) : Except String α :=
  match ask inp 0 with
  | Except.ok c => Except.ok c
  | Except.error _ => ask inp 1

/-! ## Legal variant sets (lines 176-201)

Which union of pydantic schemas `respond_to_user` passes to
`role.aask`, as a function of the selected channel and of whether the
request carries uploaded image data. The branch order follows the
source: the `learn` channel is tested first (line 176), then
`image_data` (line 185), then the default channel test (line 190), then
the catch-all for any other named channel (lines 196-201). -/

inductive VariantTag where
  | directResponse
  | learnResponse
  | documentRetrievalInput
  | modelZooInfoScript
  | cellposeTask
deriving DecidableEq, Repr

/-- The schema list handed to the classifier, in source order. -/
def legalVariants (channel : Option String) (hasImage : Bool) : List VariantTag :=
  if channel = some "learn" then [.learnResponse]
  else if hasImage then [.cellposeTask]
  else if channel = none ∨ channel = some "bioimage.io" then
    [.directResponse, .documentRetrievalInput, .modelZooInfoScript, .learnResponse]
  else
    [.directResponse, .documentRetrievalInput]

/-! ## Multi-channel retrieval merge (lines 241-267)

The `DocumentRetrievalInput` branch. A channel's vector store is
modelled by its `search` function (`asimilarity_search_with_relevance_scores`),
returning either a fault or the ordered hit list for a query and a `k`.
The loop body of the `"all"` path also prints the first two retrieved
documents of each channel (line 253), which raises `IndexError` when a
channel returned fewer than two hits; the single-channel path prints the
first three (line 267). Both the adapter fault and that index fault
propagate out of the handler, so the embedding returns `Except`. -/

inductive RetrievalFault where
  | channelFault (msg : String)
  | indexError
deriving DecidableEq, Repr

/-- One `(doc, score)` pair returned by a store's similarity search. -/
structure RetrievedHit where
  page_content : String
  score : ℚ
  metadata : List (String × String)
deriving DecidableEq, Repr

/-- One registered channel: its id, collection info fields, and its
similarity-search function. -/
structure ChannelAdapter where
  id : String
  base_url : Option String
  format : Option String
  search : String → Nat → Except String (List RetrievedHit)

/-- `DocWithScore(doc=..., score=..., metadata=..., base_url=...)`
(lines 98-103 / 251 / 266). -/
structure DocWithScore where
  doc : String
  score : ℚ
  metadata : List (String × String)
  base_url : Option String
deriving DecidableEq, Repr

/-- Wrapping one hit of one channel as a `DocWithScore` (lines 251, 266). -/
def wrapDoc (ch : ChannelAdapter) (h : RetrievedHit) : DocWithScore :=
  { doc := h.page_content, score := h.score, metadata := h.metadata, base_url := ch.base_url }

/-- The channel loop of the `"all"` path (lines 245-253): query each
channel in registry order with `k=2`, wrap the hits, and accumulate; a
channel whose search raises aborts the loop with that fault, and a
channel returning fewer than two hits aborts it with the `IndexError`
of the logging statement at line 253. -/
def retrieveAll (adapters : List ChannelAdapter) (query : String) :
    Except RetrievalFault (List DocWithScore) :=
  match adapters with
  | [] => Except.ok []
  | ch :: rest =>
    match ch.search query 2 with
    | Except.error e => Except.error (RetrievalFault.channelFault e)
    | Except.ok hits =>
      if 2 ≤ hits.length then
        match retrieveAll rest query with
        | Except.error e => Except.error e
        | Except.ok acc => Except.ok (hits.map (wrapDoc ch) ++ acc)
      else Except.error RetrievalFault.indexError

/-- Relevance ordering used by the merge: `a` ranks at least as high as
`b`. Total and transitive on the rational scores. -/
def scoreGe (a b : DocWithScore) : Prop := b.score ≤ a.score

instance : DecidableRel scoreGe := fun a b => inferInstanceAs (Decidable (b.score ≤ a.score))

instance : IsTotal DocWithScore scoreGe := ⟨fun a b => le_total b.score a.score⟩

instance : IsTrans DocWithScore scoreGe := ⟨fun _ _ _ h1 h2 => le_trans h2 h1⟩

/-- `sorted(docs_with_score, key=lambda x: x.score, reverse=True)`
(line 255). Python's sort is stable, and a stable sort by a key is
uniquely determined, so the stable `List.insertionSort` by `scoreGe`
computes the same list. -/
def sortDesc (l : List DocWithScore) : List DocWithScore :=
  List.insertionSort scoreGe l

/-- The whole `"all"`-channels merge (lines 242-257): run the channel
loop, sort all accumulated documents by score descending, and keep the
top 3. -/
def mergeAll (adapters : List ChannelAdapter) (query : String) :
    Except RetrievalFault (List DocWithScore) :=
  match retrieveAll adapters query with
  | Except.error e => Except.error e
  | Except.ok docs => Except.ok ((sortDesc docs).take 3)

/-- The single-channel path (lines 260-267): query the one channel with
`k=3` and wrap the hits; the logging statement at line 267 indexes the
first three documents, raising `IndexError` when fewer than three came
back. -/
def retrieveSingle (ch : ChannelAdapter) (query : String) :
    Except RetrievalFault (List DocWithScore) :=
  match ch.search query 3 with
  | Except.error e => Except.error (RetrievalFault.channelFault e)
  | Except.ok hits =>
    if 3 ≤ hits.length then Except.ok (hits.map (wrapDoc ch))
    else Except.error RetrievalFault.indexError

/-! ## General lemmas about the merge -/

lemma sortDesc_perm (l : List DocWithScore) : (sortDesc l).Perm l :=
  List.perm_insertionSort scoreGe l

lemma sortDesc_sorted (l : List DocWithScore) : List.Pairwise scoreGe (sortDesc l) :=
  List.sorted_insertionSort scoreGe l

lemma take3_length (l : List DocWithScore) : ((sortDesc l).take 3).length ≤ 3 := by
  simp [List.length_take]

lemma take3_pairwise (l : List DocWithScore) :
    List.Pairwise scoreGe ((sortDesc l).take 3) :=
  List.Pairwise.sublist (List.take_sublist 3 (sortDesc l)) (sortDesc_sorted l)

lemma take3_mem {l : List DocWithScore} {x : DocWithScore}
    (hx : x ∈ (sortDesc l).take 3) : x ∈ l :=
  (sortDesc_perm l).mem_iff.mp ((List.take_sublist 3 (sortDesc l)).mem hx)

lemma take3_threshold {l : List DocWithScore} {y : DocWithScore}
    (hy : y ∈ l) (hny : y ∉ (sortDesc l).take 3) :
    ∀ x ∈ (sortDesc l).take 3, y.score ≤ x.score := by
  intro x hx
  have hys : y ∈ sortDesc l := (sortDesc_perm l).mem_iff.mpr hy
  have hsplit : (sortDesc l).take 3 ++ (sortDesc l).drop 3 = sortDesc l :=
    List.take_append_drop 3 (sortDesc l)
  have hpair : List.Pairwise scoreGe ((sortDesc l).take 3 ++ (sortDesc l).drop 3) := by
    rw [hsplit]; exact sortDesc_sorted l
  have hyd : y ∈ (sortDesc l).drop 3 := by
    have : y ∈ (sortDesc l).take 3 ++ (sortDesc l).drop 3 := by rw [hsplit]; exact hys
    rcases List.mem_append.mp this with h | h
    · exact absurd h hny
    · exact h
  exact (List.pairwise_append.mp hpair).2.2 x hx y hyd

lemma retrieveAll_ok (q : String) (hits : ChannelAdapter → List RetrievedHit) :
    ∀ (adapters : List ChannelAdapter),
    (∀ ch ∈ adapters, ch.search q 2 = Except.ok (hits ch)) →
    (∀ ch ∈ adapters, 2 ≤ (hits ch).length) →
    retrieveAll adapters q =
      Except.ok (adapters.flatMap fun ch => (hits ch).map (wrapDoc ch)) := by
  intro adapters
  induction adapters with
  | nil => intro _ _; simp [retrieveAll]
  | cons ch rest ih =>
    intro hok hlen
    have h1 := hok ch (List.mem_cons_self ch rest)
    have h2 := hlen ch (List.mem_cons_self ch rest)
    have ihr := ih (fun c hc => hok c (List.mem_cons_of_mem ch hc))
      (fun c hc => hlen c (List.mem_cons_of_mem ch hc))
    simp [retrieveAll, h1, h2, ihr]

lemma retrieveAll_error (q : String) :
    ∀ (adapters : List ChannelAdapter) (ch : ChannelAdapter) (e : String),
    ch ∈ adapters → ch.search q 2 = Except.error e →
    ∃ e', retrieveAll adapters q = Except.error e' := by
  intro adapters
  induction adapters with
  | nil => intro ch e h _; simp at h
  | cons a rest ih =>
    intro ch e hmem hfault
    rcases List.mem_cons.mp hmem with rfl | hmem'
    · exact ⟨RetrievalFault.channelFault e, by simp [retrieveAll, hfault]⟩
    · cases ha : a.search q 2 with
      | error e2 => exact ⟨RetrievalFault.channelFault e2, by simp [retrieveAll, ha]⟩
      | ok hits =>
        by_cases hl : 2 ≤ hits.length
        · obtain ⟨e', he'⟩ := ih ch e hmem' hfault
          exact ⟨e', by simp [retrieveAll, ha, hl, he']⟩
        · exact ⟨RetrievalFault.indexError, by simp [retrieveAll, ha, hl]⟩

/-! ## Concrete channels used in witnesses and counterexamples -/

def hitA1 : RetrievedHit := { page_content := "alpha doc one", score := 9, metadata := [] }

def hitA2 : RetrievedHit := { page_content := "alpha doc two", score := 4, metadata := [] }

def hitB1 : RetrievedHit := { page_content := "beta doc one", score := 7, metadata := [] }

def hitB2 : RetrievedHit := { page_content := "beta doc two", score := 6, metadata := [] }

def hitG3 : RetrievedHit := { page_content := "gamma doc three", score := 1, metadata := [] }

/-- A channel whose store returns two hits for any query. -/
def chanAlpha : ChannelAdapter :=
  { id := "alpha", base_url := some "https://alpha.example", format := none,
    search := fun _ _ => Except.ok [hitA1, hitA2] }

/-- A second two-hit channel. -/
def chanBeta : ChannelAdapter :=
  { id := "beta", base_url := none, format := some "markdown",
    search := fun _ _ => Except.ok [hitB1, hitB2] }

/-- A channel whose store returns three hits for any query. -/
def chanGamma : ChannelAdapter :=
  { id := "gamma", base_url := none, format := none,
    search := fun _ _ => Except.ok [hitB1, hitB2, hitG3] }

/-- A channel whose store raises on every query. -/
def chanFaulty : ChannelAdapter :=
  { id := "faulty", base_url := none, format := none,
    search := fun _ _ => Except.error "connection reset" }

/-- A channel whose store returns a single hit for any query. -/
def chanShort : ChannelAdapter :=
  { id := "short", base_url := none, format := none,
    search := fun _ _ => Except.ok [hitA1] }

/-- Per-channel hit assignment used to instantiate the merge theorem. -/
def hitsW (ch : ChannelAdapter) : List RetrievedHit :=
  if ch.id = "alpha" then [hitA1, hitA2] else [hitB1, hitB2]

/-! ## Claim C1 -/

/-- Claim C1, counterexample: with a registry of two channels in which
the first channel's adapter faults and the second is healthy, the
`"all"` merge does not return a Ranked Result Set at all — the fault
propagates and aborts the merge, and the healthy channel's passages are
lost (the loop at lines 245-253 has no handler around the per-channel
search). For contrast, merging the healthy channel alone succeeds. -/
theorem mergeAll_channel_fault_cex :
    mergeAll [chanFaulty, chanAlpha] "q" =
      Except.error (RetrievalFault.channelFault "connection reset") ∧
    mergeAll [chanAlpha] "q" =
      Except.ok [wrapDoc chanAlpha hitA1, wrapDoc chanAlpha hitA2] := by
  constructor <;> rfl

/-- Claim C1 (amended): in a merge over all channels, a fault raised by
a single channel's retrieval adapter aborts the whole merge: the fault
propagates out of the handler and no Ranked Result Set is returned. -/
theorem mergeAll_channel_fault_aborts (adapters : List ChannelAdapter) (q : String)
    (ch : ChannelAdapter) (e : String) (hmem : ch ∈ adapters)
    (hfault : ch.search q 2 = Except.error e) :
    ∃ e', mergeAll adapters q = Except.error e' := by
  obtain ⟨e', he'⟩ := retrieveAll_error q adapters ch e hmem hfault
  exact ⟨e', by simp [mergeAll, he']⟩

/-- Witness for `mergeAll_channel_fault_aborts` at a concrete registry. -/
theorem mergeAll_channel_fault_aborts_w :
    ∃ e', mergeAll [chanFaulty, chanAlpha] "query" = Except.error e' :=
  mergeAll_channel_fault_aborts [chanFaulty, chanAlpha] "query" chanFaulty
    "connection reset" (List.mem_cons_self _ _) rfl

/-! ## Claim C3 -/

/-- Claim C3: on the `"all"` path, when every registered channel's
adapter answers the query at `k=2` with at least two hits, the merge
concatenates all wrapped passages in registry order, sorts them by
relevance score descending and truncates to the top 3: the result has
length at most 3, is pairwise descending in score, every element comes
from the union of per-channel results, and every passage of the union
left out of the result scores no higher than any passage kept. -/
theorem mergeAll_top3 (adapters : List ChannelAdapter) (q : String)
    (hits : ChannelAdapter → List RetrievedHit)
    (hok : ∀ ch ∈ adapters, ch.search q 2 = Except.ok (hits ch))
    (hlen : ∀ ch ∈ adapters, 2 ≤ (hits ch).length) :
    ∃ r, mergeAll adapters q = Except.ok r ∧
      r = (sortDesc (adapters.flatMap fun ch => (hits ch).map (wrapDoc ch))).take 3 ∧
      r.length ≤ 3 ∧
      List.Pairwise scoreGe r ∧
      (∀ x ∈ r, x ∈ adapters.flatMap fun ch => (hits ch).map (wrapDoc ch)) ∧
      (∀ y ∈ adapters.flatMap fun ch => (hits ch).map (wrapDoc ch),
        y ∉ r → ∀ x ∈ r, y.score ≤ x.score) := by
  have hra := retrieveAll_ok q hits adapters hok hlen
  exact ⟨(sortDesc (adapters.flatMap fun ch => (hits ch).map (wrapDoc ch))).take 3,
    by simp [mergeAll, hra], rfl, take3_length _, take3_pairwise _,
    fun x hx => take3_mem hx, fun y hy hny => take3_threshold hy hny⟩

/-- Witness for `mergeAll_top3` on a registry of two channels with two
hits each. -/
theorem mergeAll_top3_w :
    ∃ r, mergeAll [chanAlpha, chanBeta] "qw" = Except.ok r ∧
      r = (sortDesc ([chanAlpha, chanBeta].flatMap
        fun ch => (hitsW ch).map (wrapDoc ch))).take 3 ∧
      r.length ≤ 3 ∧
      List.Pairwise scoreGe r ∧
      (∀ x ∈ r, x ∈ [chanAlpha, chanBeta].flatMap
        fun ch => (hitsW ch).map (wrapDoc ch)) ∧
      (∀ y ∈ [chanAlpha, chanBeta].flatMap fun ch => (hitsW ch).map (wrapDoc ch),
        y ∉ r → ∀ x ∈ r, y.score ≤ x.score) :=
  mergeAll_top3 [chanAlpha, chanBeta] "qw" hitsW
    (by
      intro ch hch
      rcases List.mem_cons.mp hch with rfl | hch'
      · rfl
      · rcases List.mem_cons.mp hch' with rfl | hch''
        · rfl
        · simp at hch'')
    (by
      intro ch hch
      rcases List.mem_cons.mp hch with rfl | hch'
      · rfl
      · rcases List.mem_cons.mp hch' with rfl | hch''
        · rfl
        · simp at hch'')

/-! ## Claim C10 -/

/-- Claim C10: the retrieval handler unconditionally indexes the first
two retrieved documents per channel when logging on the `"all"` path
(line 253) and the first three on the single-channel path (line 267),
so a channel returning one hit makes the `"all"` merge raise an
out-of-range fault instead of returning a response, and a store
returning two hits makes the single-channel path do the same; with
enough hits both paths succeed. -/
theorem retrieval_short_channel_index_fault :
    mergeAll [chanShort] "q2" = Except.error RetrievalFault.indexError ∧
    retrieveSingle chanAlpha "q2" = Except.error RetrievalFault.indexError ∧
    mergeAll [chanAlpha] "q2" =
      Except.ok [wrapDoc chanAlpha hitA1, wrapDoc chanAlpha hitA2] ∧
    retrieveSingle chanGamma "q2" =
      Except.ok [wrapDoc chanGamma hitB1, wrapDoc chanGamma hitB2, wrapDoc chanGamma hitG3] := by
  refine ⟨rfl, rfl, rfl, rfl⟩

/-! ## Script sandbox claims -/

/-- A concrete ambient interpreter state for witnesses: streams bound to
objects 0 and 1, one mapping object in the store. -/
def sigma0 : PyState :=
  { stdoutBinding := 0, stderrBinding := 1, maps := fun _ => [("a", "1")], nextId := 5 }

/-- A script that flushes some output and then raises an exception whose
`str(e)` is the empty string (e.g. `print("partial"); raise Exception()`). -/
def scriptEmptyMsg : PyScript :=
  { out := "partial", errOut := "", updates := [], fault := some "" }

/-- A script that flushes `"hello"` to stdout and then raises an
exception stringifying to `"boom"`. -/
def scriptHelloBoom : PyScript :=
  { out := "hello", errOut := "", updates := [], fault := some "boom" }

/-- A script that rebinds an existing name and adds a new one in its
execution namespace. -/
def scriptRebinds : PyScript :=
  { out := "", errOut := "", updates := [("a", "2"), ("b", "3")], fault := none }

/-- Claim C2, counterexample: a script raising an exception whose
stringification is empty (such as `raise Exception()`) makes
`execute_code` return an empty `stderr`, so the returned
`standard_error` is not non-empty for every faulting script. -/
theorem execute_code_nonempty_stderr_cex :
    scriptEmptyMsg.fault = some "" ∧
    (execute_code scriptEmptyMsg none sigma0).1.stderr = "" ∧
    (execute_code scriptEmptyMsg none sigma0).1.stdout = "" := by
  refine ⟨rfl, rfl, rfl⟩

/-- Claim C2 (amended): for every script whose execution raises a
fault, `execute_code` returns a result whose `stdout` is the empty
string and whose `stderr` is exactly the stringified fault — which is
empty when the exception's message is empty; `execute_code` is a total
function of the script, context and state, so it never propagates a
fault to its caller. -/
theorem execute_code_fault_result (s : PyScript) (c : Option Nat) (σ : PyState)
    (m : String) (h : s.fault = some m) :
    (execute_code s c σ).1 = { stdout := "", stderr := m } := by
  simp [execute_code, scriptResult, h]

/-- Witness for `execute_code_fault_result` at a concrete faulting script. -/
theorem execute_code_fault_result_w :
    (execute_code scriptHelloBoom none sigma0).1 = { stdout := "", stderr := "boom" } :=
  execute_code_fault_result scriptHelloBoom none sigma0 "boom" rfl

/-- Claim C6, counterexample: a script that flushes `"hello"` to the
captured output stream and then faults gets `stdout = ""` back from
`execute_code` — the `except` branch (lines 70-75) discards the
captured output instead of returning what was flushed before the
fault. -/
theorem execute_code_flushed_stdout_cex :
    scriptHelloBoom.out = "hello" ∧
    (execute_code scriptHelloBoom none sigma0).1.stdout = "" ∧
    ("hello" : String) ≠ "" := by
  refine ⟨rfl, rfl, by decide⟩

/-- Claim C6 (amended): when a script executed by `execute_code` raises
a fault partway through, the returned `stdout` is the empty string
regardless of what the script flushed to the output stream before the
fault. -/
theorem execute_code_fault_stdout_empty (s : PyScript) (c : Option Nat) (σ : PyState)
    (h : s.fault.isSome = true) :
    (execute_code s c σ).1.stdout = "" := by
  cases hf : s.fault with
  | none => rw [hf] at h; simp at h
  | some m => simp [execute_code, scriptResult, hf]

/-- Witness for `execute_code_fault_stdout_empty`. -/
theorem execute_code_fault_stdout_empty_w :
    (execute_code scriptEmptyMsg (some 0) sigma0).1.stdout = "" :=
  execute_code_fault_stdout_empty scriptEmptyMsg (some 0) sigma0 rfl

/-- Claim C7: for every script, context and interpreter state — in
particular for faulting scripts — `execute_code` leaves the process
stream bindings as it found them: the `finally` block restores
`sys.stdout` and `sys.stderr` to the objects saved before the
redirection on every exit path. -/
theorem execute_code_restores_streams (s : PyScript) (c : Option Nat) (σ : PyState) :
    (execute_code s c σ).2.stdoutBinding = σ.stdoutBinding ∧
    (execute_code s c σ).2.stderrBinding = σ.stderrBinding :=
  ⟨rfl, rfl⟩

/-- Claim C9: for every script and every valid reference to the
caller's context mapping, `execute_code` leaves the caller's mapping
untouched: the script runs against `context.copy()`, a fresh mapping
object, so rebinding or adding names inside the script never alters
the caller's top-level bindings. -/
theorem execute_code_preserves_context (s : PyScript) (r : Nat) (σ : PyState)
    (h : r < σ.nextId) :
    (execute_code s (some r) σ).2.maps r = σ.maps r := by
  simp only [execute_code]
  rw [if_neg (by omega)]

/-- Witness for `execute_code_preserves_context`: a script that rebinds
`a` and adds `b` leaves the caller's mapping `{a: 1}` unchanged. -/
theorem execute_code_preserves_context_w :
    0 < sigma0.nextId ∧
    (execute_code scriptRebinds (some 0) sigma0).2.maps 0 = sigma0.maps 0 :=
  ⟨by decide, execute_code_preserves_context scriptRebinds 0 sigma0 (by decide)⟩

/-! ## Classification retry claim -/

/-- Claim C4: the router's classification wrapper retries the external
classifier exactly once on a fault, with identical inputs: a success at
the first attempt is returned as-is; after a first fault the second
attempt's outcome is returned unchanged, so a second fault is
propagated to the caller; and the outcome depends only on the first two
attempts at the same input, so no further retry occurs — in particular
the second attempt is irrelevant when the first succeeds. -/
theorem classifyWithRetry_spec {α : Type} (ask : ClassifyInput → Nat → Except String α)
    (inp : ClassifyInput) :
    (∀ c, ask inp 0 = Except.ok c → classifyWithRetry ask inp = Except.ok c) ∧
    (∀ e, ask inp 0 = Except.error e → classifyWithRetry ask inp = ask inp 1) ∧
    (∀ e e', ask inp 0 = Except.error e → ask inp 1 = Except.error e' →
      classifyWithRetry ask inp = Except.error e') ∧
    (∀ ask' : ClassifyInput → Nat → Except String α,
      ask' inp 0 = ask inp 0 → ask' inp 1 = ask inp 1 →
      classifyWithRetry ask' inp = classifyWithRetry ask inp) ∧
    (∀ c, ∀ ask' : ClassifyInput → Nat → Except String α,
      ask inp 0 = Except.ok c → ask' inp 0 = ask inp 0 →
      classifyWithRetry ask' inp = classifyWithRetry ask inp) := by
  refine ⟨?_, ?_, ?_, ?_, ?_⟩
  · intro c h; simp [classifyWithRetry, h]
  · intro e h; simp [classifyWithRetry, h]
  · intro e e' h h'; simp [classifyWithRetry, h, h']
  · intro ask' h0 h1; unfold classifyWithRetry; rw [h0, h1]
  · intro c ask' h h0; unfold classifyWithRetry; rw [h0, h]

/-- A concrete classification input. -/
def inpW : ClassifyInput :=
  { channel := none, profile := "profile", history := [], question := "what is a model?" }

/-- An oracle that faults at the first attempt and again at the second. -/
def askW : ClassifyInput → Nat → Except String String :=
  fun _ n => if n = 0 then Except.error "timeout" else Except.error "overloaded"

/-- Witness for `classifyWithRetry_spec`: two consecutive faults make
the wrapper return the second fault. -/
theorem classifyWithRetry_spec_w :
    classifyWithRetry askW inpW = Except.error "overloaded" :=
  (classifyWithRetry_spec askW inpW).2.2.1 "timeout" "overloaded" rfl rfl

/-! ## Legal variant set claims -/

lemma legalVariants_ne_nil (ch : Option String) (img : Bool) :
    legalVariants ch img ≠ [] := by
  unfold legalVariants
  split_ifs <;> simp

/-- Claim C5, counterexample: with the default channel selected but
image data attached to the request, the classifier is constrained to
the single `CellposeTask` schema (line 185 takes priority over line
190), not to the four default variants — so the default channel does
not always allow all four variants. -/
theorem legalVariants_image_cex :
    legalVariants none true = [VariantTag.cellposeTask] ∧
    VariantTag.modelZooInfoScript ∉ legalVariants none true ∧
    VariantTag.directResponse ∉ legalVariants none true := by
  refine ⟨rfl, by decide, by decide⟩

/-- Claim C5 (amended): the `learn` channel always restricts the
classifier to the single `LearnResponse` variant; for requests without
uploaded image data, the default channel (no selection or
`bioimage.io`) allows exactly the four variants `DirectResponse`,
`DocumentRetrievalInput`, `ModelZooInfoScript`, `LearnResponse`, and
any other named channel restricts to exactly `DirectResponse` and
`DocumentRetrievalInput`; for non-`learn` requests with image data the
legal set is the single `CellposeTask` variant; and a classifier that
honours its schema list returns one variant from the legal set. -/
theorem legalVariants_spec :
    (∀ img, legalVariants (some "learn") img = [VariantTag.learnResponse]) ∧
    legalVariants none false = [VariantTag.directResponse,
      VariantTag.documentRetrievalInput, VariantTag.modelZooInfoScript,
      VariantTag.learnResponse] ∧
    legalVariants (some "bioimage.io") false = [VariantTag.directResponse,
      VariantTag.documentRetrievalInput, VariantTag.modelZooInfoScript,
      VariantTag.learnResponse] ∧
    (∀ ch : String, ch ≠ "learn" → ch ≠ "bioimage.io" →
      legalVariants (some ch) false =
        [VariantTag.directResponse, VariantTag.documentRetrievalInput]) ∧
    (∀ ch : Option String, ch ≠ some "learn" →
      legalVariants ch true = [VariantTag.cellposeTask]) ∧
    (∀ ask : List VariantTag → VariantTag,
      (∀ ts, ts ≠ [] → ask ts ∈ ts) →
      ∀ ch img, ask (legalVariants ch img) ∈ legalVariants ch img) := by
  refine ⟨?_, by rfl, by rfl, ?_, ?_, ?_⟩
  · intro img; simp [legalVariants]
  · intro ch h1 h2; simp [legalVariants, h1, h2]
  · intro ch h
    cases ch with
    | none => simp [legalVariants]
    | some s =>
      have hs : s ≠ "learn" := by simpa using h
      simp [legalVariants, hs]
  · intro ask hask ch img
    exact hask _ (legalVariants_ne_nil ch img)

/-- Witness for `legalVariants_spec` at a named non-default channel. -/
theorem legalVariants_spec_w :
    legalVariants (some "elmo") false =
      [VariantTag.directResponse, VariantTag.documentRetrievalInput] :=
  legalVariants_spec.2.2.2.1 "elmo" (by decide) (by decide)

/-! ## Stream listener claim -/

/-- Claim C8: the per-request stream listener subscribed with session
id `S` never forwards an event whose embedded session id differs from
`S`; whenever it does forward, the forwarded event is the message
itself, its session id equals `S`, and its type is `"function_call"`
or `"text"`. -/
theorem stream_callback_session_filter (S : String) (msg : StreamMessage) :
    (msg.sessionId ≠ S → stream_callback S msg = none) ∧
    (∀ m, stream_callback S msg = some m →
      m = msg ∧ msg.sessionId = S ∧
        (msg.type = "function_call" ∨ msg.type = "text")) := by
  constructor
  · intro hne
    unfold stream_callback
    by_cases ht : msg.type = "function_call" ∨ msg.type = "text"
    · rw [if_pos ht, if_neg hne]
    · rw [if_neg ht]
  · intro m hm
    unfold stream_callback at hm
    by_cases ht : msg.type = "function_call" ∨ msg.type = "text"
    · rw [if_pos ht] at hm
      by_cases hs : msg.sessionId = S
      · rw [if_pos hs] at hm
        cases hm
        exact ⟨rfl, hs, ht⟩
      · rw [if_neg hs] at hm; cases hm
    · rw [if_neg ht] at hm; cases hm

/-- Witness for `stream_callback_session_filter`: a `"text"` event for
session `s2` is not forwarded to the listener for session `s1`. -/
theorem stream_callback_session_filter_w :
    stream_callback "s1" { type := "text", sessionId := "s2", content := "step" } = none :=
  (stream_callback_session_filter "s1"
    { type := "text", sessionId := "s2", content := "step" }).1 (by decide)

end Chatbot
